import Mathlib

/-!
Shallow embedding of `src/app.py` (JuniperProject): a Flask alerting relay
with an alarm normalizer, a bounded FIFO alarm store, a single-slot
latest-result mailbox, and a gateway client.  Python dict payloads are
modelled as association lists of JSON-like values; Python truthiness,
`dict.get`, `str.strip`, f-string rendering and `os.environ.get` are
modelled explicitly.
-/

/-- An exact decimal (a Python float literal such as `12.5`), kept as an
unreduced fraction `num / den`; all decimal payload literals in this program
are exactly representable, so the binary float detour is observationally
irrelevant here. -/
structure PyFloat where
  num : Int
  den : Nat
deriving DecidableEq

/-- A float equals an integer `n` iff `num = n * den` (and it is a real
fraction, `den ≠ 0`). -/
def PyFloat.eqInt (f : PyFloat) (n : Int) : Bool :=
  decide (f.den ≠ 0) && decide (f.num = n * f.den)

/-- JSON-like values as Python receives them from `request.get_json()`:
`None`, booleans, ints, floats, strings, lists and dicts (association lists
in insertion order). -/
inductive Val where
  | vnull : Val
  | vbool (b : Bool) : Val
  | vint (n : Int) : Val
  | vfloat (f : PyFloat) : Val
  | vstr (s : String) : Val
  | vlist (xs : List Val) : Val
  | vdict (xs : List (String × Val)) : Val

/-- Python `v == s` for a string literal `s`: true exactly when `v` is that
string (a non-string value never equals a string in Python). -/
def eqStr (v : Val) (s : String) : Bool :=
  match v with
  | Val.vstr t => t == s
  | _ => false

/-- Python truthiness: `None`, `False`, zero, empty string/list/dict are falsy. -/
def truthy : Val → Bool
  | Val.vnull => false
  | Val.vbool b => b
  | Val.vint n => decide (n ≠ 0)
  | Val.vfloat f => decide (f.num ≠ 0)
  | Val.vstr s => !s.isEmpty
  | Val.vlist xs => !xs.isEmpty
  | Val.vdict xs => !xs.isEmpty

/-- Python `d.get(k)`: the value at `k`, or `None` when absent. -/
def pyGet (d : List (String × Val)) (k : String) : Val :=
  match d.find? (fun p => p.1 == k) with
  | some p => p.2
  | none => Val.vnull

/-- Python `d.get(k, dflt)`. -/
def pyGetD (d : List (String × Val)) (k : String) (dflt : Val) : Val :=
  match d.find? (fun p => p.1 == k) with
  | some p => p.2
  | none => dflt

/-- Characters removed by Python `str.strip()` (ASCII whitespace). -/
def isPySpace (c : Char) : Bool :=
  c == ' ' || c == '\t' || c == '\n' || c == '\x0d' || c == '\x0b' || c == '\x0c'

/-- Python `s.strip()`: drop leading and trailing whitespace. -/
def pyStrip (s : String) : String :=
  String.mk (((s.toList.dropWhile isPySpace).reverse.dropWhile isPySpace).reverse)

/-- Substring test (Python `needle in hay`). -/
def strContains (hay needle : String) : Bool :=
  (List.range (hay.length + 1)).any (fun i => needle.toList.isPrefixOf (hay.toList.drop i))

/-- Python `p` is a prefix of `s` (`s.startswith(p)`). -/
def strIsPrefixOf (p s : String) : Bool := p.toList.isPrefixOf s.toList

/-- Python `p` is a suffix of `s` (`s.endswith(p)`). -/
def strIsSuffixOf (p s : String) : Bool := p.toList.isSuffixOf s.toList

/-- Python `s.lower()`. -/
def pyLower (s : String) : String := String.mk (s.toList.map Char.toLower)

/-- Decimal digits of `rem / den` (a proper fraction), with fuel. -/
def fracDigits : Nat → Nat → Nat → String
  | 0, _, _ => ""
  | _ + 1, 0, _ => ""
  | n + 1, rem, den => toString (rem * 10 / den) ++ fracDigits n (rem * 10 % den) den

/-- Python `repr`/`str` of a float (decimal literals round-trip, e.g. `12.5`
prints as `"12.5"`, `0.0` as `"0.0"`). -/
def pyFloatRepr (f : PyFloat) : String :=
  if f.den = 0 then (if 0 < f.num then "inf" else if f.num < 0 then "-inf" else "nan")
  else
    let sign := if f.num < 0 then "-" else ""
    let a := f.num.natAbs
    let ip := a / f.den
    let rem := a % f.den
    if rem = 0 then sign ++ toString ip ++ ".0"
    else sign ++ toString ip ++ "." ++ fracDigits 40 rem f.den

/-- A single-quote character, for Python `repr` of strings. -/
def pyQuote : String := String.singleton (Char.ofNat 39)

/-- Python `repr(v)`, structurally recursive on a depth fuel (the fuel
`sizeOf v` used below always dominates the nesting depth, so the fuel-out
branches are unreachable on actual values). -/
def pyReprF : Nat → Val → String
  | _, Val.vnull => "None"
  | _, Val.vbool b => cond b "True" "False"
  | _, Val.vint n => toString n
  | _, Val.vfloat f => pyFloatRepr f
  | _, Val.vstr s => pyQuote ++ s ++ pyQuote
  | 0, Val.vlist _ => "[]"
  | 0, Val.vdict _ => "\x7b\x7d"
  | n + 1, Val.vlist xs =>
      "[" ++ String.intercalate ", " (xs.map (fun x => pyReprF n x)) ++ "]"
  | n + 1, Val.vdict xs =>
      "\x7b" ++
        String.intercalate ", "
          (xs.map (fun p => pyQuote ++ p.1 ++ pyQuote ++ ": " ++ pyReprF n p.2)) ++
      "\x7d"

/-- Python `repr(v)`.  The fuel 1000 mirrors CPython's default recursion
limit: values nested deeper than that make `repr` raise `RecursionError`,
and no JSON payload parsed by Flask reaches that depth. -/
def pyRepr (v : Val) : String := pyReprF 1000 v

/-- Python `str(v)` (an f-string interpolation): identity on strings,
`repr` otherwise. -/
def pyStr (v : Val) : String :=
  match v with
  | Val.vstr s => s
  | _ => pyRepr v

/-- Python `os.environ.get(k, dflt)` over an environment association list. -/
def envGet (env : List (String × String)) (k dflt : String) : String :=
  match env.find? (fun p => p.1 == k) with
  | some p => p.2
  | none => dflt

/-- `GATEWAY_BASE = os.environ.get("GATEWAY_BASE", "https://223.194.92.152:443")`. -/
def GATEWAY_BASE (env : List (String × String)) : String :=
  envGet env "GATEWAY_BASE" "https://223.194.92.152:443"

/-- `GW_VERIFY = os.environ.get("GW_VERIFY", "false").lower() == "true"`. -/
def GW_VERIFY (env : List (String × String)) : Bool :=
  pyLower (envGet env "GW_VERIFY" "false") == "true"

/-- The transport-level parameters of one outbound `requests` call issued by
the gateway client (`gw_get` / `gw_post`). -/
structure OutboundCall where
  url : String
  timeout : Nat
  verify : Bool
  stream : Bool
deriving DecidableEq

/-- The request `gw_get(path, timeout)` issues:
`requests.get(f"{GATEWAY_BASE}{path}", timeout=timeout, verify=GW_VERIFY)`. -/
def gw_get (env : List (String × String)) (path : String) (timeout : Nat) : OutboundCall :=
  ⟨GATEWAY_BASE env ++ path, timeout, GW_VERIFY env, false⟩

/-- The request `gw_post(path, body, timeout, stream)` issues. -/
def gw_post (env : List (String × String)) (path : String) (timeout : Nat)
    (stream : Bool) : OutboundCall :=
  ⟨GATEWAY_BASE env ++ path, timeout, GW_VERIFY env, stream⟩

/-! ## Alarm normalizer and alarm store (`POST /api/alerts/<scenario_id>`) -/

/-- A unified alarm: the Python dict built by `api_alerts`, in insertion order. -/
abbrev AlarmD := List (String × Val)

/-- A request payload (`request.get_json(silent=True) or {}`). -/
abbrev Payload := List (String × Val)

/-- `DEVICE_MAP.get(device_id, f"Unknown({device_id})")` with
`DEVICE_MAP = {4: "CR1", 5: "BB1", 6: "BB2"}`; a Python float key equal to
one of the int keys also matches. -/
def deviceNameOf (device_id : Val) : String :=
  match device_id with
  | Val.vint 4 => "CR1"
  | Val.vint 5 => "BB1"
  | Val.vint 6 => "BB2"
  | Val.vfloat f =>
      if f.eqInt 4 then "CR1"
      else if f.eqInt 5 then "BB1"
      else if f.eqInt 6 then "BB2"
      else "Unknown(" ++ pyStr device_id ++ ")"
  | _ => "Unknown(" ++ pyStr device_id ++ ")"

/-- `MAX_ALARMS = 3`. -/
def MAX_ALARMS : Nat := 3

/-- Outcome of the per-scenario normalization block of `api_alerts`:
a built unified alarm, a 400 validation response body, or an uncaught
Python exception (e.g. `.get` on a non-dict), which Flask's 500 handler
would absorb. -/
inductive NormOut where
  | ok (a : AlarmD) : NormOut
  | fail (body : Val) : NormOut
  | exn : NormOut

/-- Python `v is None`. -/
def isNone : Val → Bool
  | Val.vnull => true
  | _ => false

/-- The required-field check of scenario 1:
`all([device_id, interface_name, packet_loss is not None, alarm_type])`. -/
def check1 (body : Payload) : Bool :=
  truthy (pyGet body "device") && truthy (pyGet body "interface") &&
    !(isNone (pyGet body "packet_loss")) && truthy (pyGet body "alarm_type")

/-- Scenario 1 (interface CRC error) branch of `api_alerts`. -/
def scenario1 (body : Payload) (freshId : String) : NormOut :=
  let device_id := pyGet body "device"
  let device_name := deviceNameOf device_id
  let interface_name := pyGet body "interface"
  let packet_loss := pyGet body "packet_loss"
  let time := pyGet body "timestamp"
  let alarm_type := pyGet body "alarm_type"
  let interlink_status := pyGet body "interlink_status"
  let optic_power_data := pyGetD body "optic_power" (Val.vdict [])
  if !(check1 body) then
    NormOut.fail (Val.vdict [("error", Val.vstr "Missing data for scenario 1")])
  else
    let art :=
      if eqStr interlink_status "false" then
        "*경고 : " ++ pyStr interface_name ++ "가 down되어있습니다. interlink를 확인해주세요."
      else ""
    NormOut.ok
      [("id", Val.vstr freshId),
       ("device", Val.vstr device_name),
       ("title", Val.vstr (device_name ++ " 장비 Interface " ++ pyStr interface_name ++ " CRC Error 발생")),
       ("description", Val.vstr ("Interface " ++ pyStr interface_name ++ " error rate - " ++ pyStr packet_loss ++ "%<br>" ++ art)),
       ("type", alarm_type),
       ("time", time),
       ("optic_power_data", optic_power_data),
       ("show_optic_power_button", Val.vbool true),
       ("interface_name", interface_name)]

/-- The constant `log_description` string of scenario 2. -/
def logDescription2 : String :=
  "fpc/8/pfe/0/cm/0/XMCHIP(0)/0/XMCHIP_CMERROR_FI_PAR_PROTECT_FSET_REG_DETECTED_CP_FREEPOOL (0x70134) in module: XMCHIP(0) with scope: pfe category: functional level: major, oc_category: default"

/-- The required-field check of scenario 2 after the nested lookup resolved to
`discard_rate`: `all([device_id, fpc_slot, log_description, discard_rate])`. -/
def check2 (body : Payload) (discard_rate : Val) : Bool :=
  truthy (pyGet body "device") && truthy (pyGet body "fpc_slot") &&
    truthy (Val.vstr logDescription2) && truthy discard_rate

/-- Scenario 2 (FPC/PFE disable) branch of `api_alerts`.  The nested lookup
`body.get("discard_rate", {}).get("discard_rate", 0.0)` raises when the outer
value is present but not a dict. -/
def scenario2 (body : Payload) (freshId : String) : NormOut :=
  let device_id := pyGet body "device"
  let device_name := deviceNameOf device_id
  let fpc_slot := pyGet body "fpc_slot"
  let time := pyGet body "timestamp"
  match pyGetD body "discard_rate" (Val.vdict []) with
  | Val.vdict d =>
      let discard_rate := pyGetD d "discard_rate" (Val.vfloat ⟨0, 1⟩)
      if !(check2 body discard_rate) then
        NormOut.fail (Val.vdict [("error", Val.vstr "Missing data for scenario 2")])
      else
        NormOut.ok
          [("id", Val.vstr freshId),
           ("title", Val.vstr (device_name ++ " 장비 FPC" ++ pyStr fpc_slot ++ " PFE Disable 발생")),
           ("description", Val.vstr ("Service Impact Rate - " ++ pyStr discard_rate ++ "%")),
           ("type", Val.vstr "major"),
           ("time", time),
           ("show_optic_power_button", Val.vbool false),
           ("show_interfaces_button", Val.vbool false),
           ("show_log_button", Val.vbool true),
           ("discard_data", discard_rate),
           ("log_description", Val.vstr logDescription2)]
  | _ => NormOut.exn

/-- The required-field check of scenario 3:
`all([device_id, interface_name, interfaces_list, inout_packet, drop_count])`. -/
def check3 (body : Payload) : Bool :=
  truthy (pyGet body "device") && truthy (pyGet body "interface") &&
    truthy (pyGetD body "interfaces" (Val.vlist [])) &&
    truthy (pyGetD body "inout_packet" (Val.vdict [])) &&
    truthy (pyGetD body "drop_count" (Val.vdict []))

/-- Scenario 3 (blackhole) branch of `api_alerts`.  After the check passes,
`inout_packet.get(...)` raises when `inout_packet` is a truthy non-dict. -/
def scenario3 (body : Payload) (freshId : String) : NormOut :=
  let device_id := pyGet body "device"
  let device_name := deviceNameOf device_id
  let interface_name := pyGet body "interface"
  let interfaces_list := pyGetD body "interfaces" (Val.vlist [])
  let inout_packet := pyGetD body "inout_packet" (Val.vdict [])
  let time := pyGet body "timestamp"
  if !(check3 body) then
    NormOut.fail (Val.vdict [("error", Val.vstr "Missing data for scenario 3")])
  else
    match inout_packet with
    | Val.vdict d =>
        let severity := pyGet d "alarm_type"
        let rate := pyGetD d "traffic_diff" (Val.vfloat ⟨0, 1⟩)
        NormOut.ok
          [("id", Val.vstr freshId),
           ("title", Val.vstr (device_name ++ " Interface " ++ pyStr interface_name ++ "에서 Blackhole 발생")),
           ("description", Val.vstr ("Service Impact Rate - " ++ pyStr rate ++ "%")),
           ("type", severity),
           ("time", time),
           ("show_optic_power_button", Val.vbool false),
           ("show_interfaces_button", Val.vbool true),
           ("interfaces", interfaces_list)]
    | _ => NormOut.exn

/-- The scenario dispatch of `api_alerts` (branch order as in the source:
`"1"`, `"3"`, `"2"`, else unsupported). -/
def normalizeAlarm (scenario_id : String) (body : Payload) (freshId : String) : NormOut :=
  if scenario_id = "1" then scenario1 body freshId
  else if scenario_id = "3" then scenario3 body freshId
  else if scenario_id = "2" then scenario2 body freshId
  else NormOut.fail (Val.vdict [("error", Val.vstr "invalid or unsupported scenario_id")])

/-- The store update of `api_alerts`:
`if len(ALARM_STORE) >= MAX_ALARMS: ALARM_STORE.pop(0)` then `append`. -/
def pushAlarm (store : List AlarmD) (a : AlarmD) : List AlarmD :=
  (if MAX_ALARMS ≤ store.length then store.tail else store) ++ [a]

/-- An HTTP response (status code and JSON body), or an uncaught exception
(handled by the process-wide 500 handler). -/
inductive HResp where
  | resp (status : Nat) (body : Val) : HResp
  | exn : HResp

/-- `POST /api/alerts/<scenario_id>`: validates and normalizes the payload,
then appends to the alarm store; returns the response and the new store.
`freshId` stands for the `str(uuid.uuid4())` drawn in the call. -/
def api_alerts (scenario_id : String) (body : Payload) (freshId : String)
    (store : List AlarmD) : HResp × List AlarmD :=
  if body.isEmpty then
    (HResp.resp 400 (Val.vdict [("error", Val.vstr "Request body is required")]), store)
  else
    match normalizeAlarm scenario_id body freshId with
    | NormOut.ok a =>
        let s := pushAlarm store a
        (HResp.resp 200 (Val.vdict [("status", Val.vstr "success"), ("alarms", Val.vlist (s.map Val.vdict))]), s)
    | NormOut.fail b => (HResp.resp 400 b, store)
    | NormOut.exn => (HResp.exn, store)

/-- `DELETE /api/alarms/ignore/<alarm_id>`: rebuilds the store without the
entries whose `id` equals `alarm_id`; 200 when something was removed, 404
otherwise. -/
def api_ignore_alarm (alarm_id : String) (store : List AlarmD) :
    (Nat × Val) × List AlarmD :=
  let newStore := store.filter (fun a => !(eqStr (pyGet a "id") alarm_id))
  if newStore.length < store.length then
    ((200, Val.vdict [("status", Val.vstr "success"), ("message", Val.vstr "Alarm ignored and removed")]), newStore)
  else
    ((404, Val.vdict [("error", Val.vstr "Alarm ID not found")]), newStore)

/-- `GET /api/current-alarms`. -/
def get_current_alarms (store : List AlarmD) : Nat × Val :=
  if !store.isEmpty then (200, Val.vlist (store.map Val.vdict))
  else (202, Val.vdict [("status", Val.vstr "no new alarm")])

/-! ## Latest-result mailbox -/

/-- The process-wide `LATEST_RESULT_STORE` dict: its `result` field is either
a `{"text": ...}` dict or `None`. -/
structure LatestStore where
  result : Val
  timestamp : Val
  scenario_id : Val

/-- The initial store:
`LATEST_RESULT_STORE = {"result": {"text": ""}, "timestamp": None, "scenario_id": None}`. -/
def LATEST_RESULT_STORE : LatestStore :=
  ⟨Val.vdict [("text", Val.vstr "")], Val.vnull, Val.vnull⟩

/-- `POST /api/agent/process`: 400 on an empty body, else overwrite all three
fields (`now` stands for `time.time()`). -/
def api_agent_process (body : Payload) (now : PyFloat) (st : LatestStore) :
    (Nat × Val) × LatestStore :=
  if body.isEmpty then
    ((400, Val.vdict [("error", Val.vstr "Request body is required")]), st)
  else
    ((200, Val.vdict [("status", Val.vstr "success"), ("message", Val.vstr "Result stored")]),
     ⟨Val.vdict [("text", pyGet body "text")], Val.vfloat now, pyGet body "scenario_id"⟩)

/-- `GET /api/results/latest-result`: if `LATEST_RESULT_STORE["result"]` is
truthy, return a copy with 200 and clear all three fields to `None`; else
202 `{"status": "processing"}`. -/
def get_analysis_results (st : LatestStore) : (Nat × Val) × LatestStore :=
  if truthy st.result then
    ((200, Val.vdict [("result", st.result), ("timestamp", st.timestamp), ("scenario_id", st.scenario_id)]),
     ⟨Val.vnull, Val.vnull, Val.vnull⟩)
  else
    ((202, Val.vdict [("status", Val.vstr "processing")]), st)

/-! ## Analyze endpoint -/

/-- What `POST /api/analyze` does before (and whether it reaches) the
upstream call: reject with 400 on a blank query, call the gateway generation
endpoint with the query as prompt, or raise (`.strip()` on a non-string). -/
inductive AnalyzeStep where
  | reject (status : Nat) (body : Val) : AnalyzeStep
  | callGateway (prompt : String) : AnalyzeStep
  | exn : AnalyzeStep

/-- The validation prefix of `api_analyze`:
`query = payload.get("query", "")`; `if not query.strip(): return 400`. -/
def api_analyze (payload : Payload) : AnalyzeStep :=
  match pyGetD payload "query" (Val.vstr "") with
  | Val.vstr s =>
      if (pyStrip s).isEmpty then
        AnalyzeStep.reject 400 (Val.vdict [("error", Val.vstr "Query is required")])
      else AnalyzeStep.callGateway s
  | _ => AnalyzeStep.exn

/-! ## Derived notions used to state the claims -/

/-- One ingestion request: scenario id, JSON body, and the uuid drawn in the call. -/
structure AlertReq where
  sid : String
  body : Payload
  fid : String

/-- Thread a sequence of `POST /api/alerts/...` requests through the store. -/
def alertsRun (store : List AlarmD) : List AlertReq → List AlarmD
  | [] => store
  | r :: rs => alertsRun (api_alerts r.sid r.body r.fid store).2 rs

/-- Request `r` is a successful ingestion: it draws a 200 response (the
response status of `api_alerts` does not depend on the store). -/
def reqSucceeds (r : AlertReq) : Prop :=
  ∀ s, ∃ b, (api_alerts r.sid r.body r.fid s).1 = HResp.resp 200 b

/-- The alarm a request appends when it succeeds. -/
def normOkAlarm (r : AlertReq) : Option AlarmD :=
  if r.body.isEmpty then none
  else
    match normalizeAlarm r.sid r.body r.fid with
    | NormOut.ok a => some a
    | _ => none

/-- The alarms appended by a request sequence, in ingestion order. -/
def appendedAlarms (reqs : List AlertReq) : List AlarmD :=
  reqs.filterMap normOkAlarm

/-- The HTTP status of a response (0 for an uncaught exception, whose status
is chosen by Flask's error handler, not by `api_alerts`). -/
def respStatus : HResp → Nat
  | HResp.resp c _ => c
  | HResp.exn => 0

/-- The validation-failure conditions of `api_alerts`, exactly as the
handler tests them: empty body; a failing required-field check for scenario
`"1"`, `"3"` or `"2"` (for `"2"`, after the nested default lookup resolved to
a dict); or an unsupported scenario id. -/
def validationFailure (sid : String) (body : Payload) : Prop :=
  body = [] ∨
    (body ≠ [] ∧
      ((sid = "1" ∧ check1 body = false) ∨
       (sid = "3" ∧ check3 body = false) ∨
       (sid = "2" ∧ ∃ d, pyGetD body "discard_rate" (Val.vdict []) = Val.vdict d ∧
          check2 body (pyGetD d "discard_rate" (Val.vfloat ⟨0, 1⟩)) = false) ∨
       (sid ≠ "1" ∧ sid ≠ "2" ∧ sid ≠ "3")))

/-- The concrete scenario-1 payload of §8 of the spec:
`device=4, interface="ge-0/0/1", packet_loss=12.5, alarm_type="major",
interlink_status="false"`. -/
def samplePayload1 : Payload :=
  [("device", Val.vint 4), ("interface", Val.vstr "ge-0/0/1"),
   ("packet_loss", Val.vfloat ⟨25, 2⟩), ("alarm_type", Val.vstr "major"),
   ("interlink_status", Val.vstr "false")]

/-- The interlink warning sentence for interface `"ge-0/0/1"`. -/
def interlinkWarning : String :=
  "*경고 : ge-0/0/1가 down되어있습니다. interlink를 확인해주세요."

/-- A concrete request that always ingests successfully (scenario 1 with all
required fields present). -/
def wReq : AlertReq :=
  ⟨"1", [("device", Val.vint 4), ("interface", Val.vstr "i"),
         ("packet_loss", Val.vint 1), ("alarm_type", Val.vstr "t")], "w"⟩

/-- A concrete scenario-1 payload used to witness the success-response shape. -/
def w10Body : Payload :=
  [("device", Val.vint 5), ("interface", Val.vstr "xe-0/0/0"),
   ("packet_loss", Val.vint 2), ("alarm_type", Val.vstr "minor")]

/-! ## Helper lemmas -/

theorem pushAlarm_length_le {store : List AlarmD} (a : AlarmD) (h : store.length ≤ 3) :
    (pushAlarm store a).length ≤ 3 := by
  simp only [pushAlarm, MAX_ALARMS, List.length_append, List.length_cons, List.length_nil]
  split
  · simp only [List.length_tail]; omega
  · omega

theorem api_alerts_store_cases (sid : String) (body : Payload) (fid : String)
    (s : List AlarmD) :
    (api_alerts sid body fid s).2 = s ∨ ∃ a, (api_alerts sid body fid s).2 = pushAlarm s a := by
  unfold api_alerts
  split
  · exact Or.inl rfl
  · rcases hn : normalizeAlarm sid body fid with a | b
    · exact Or.inr ⟨a, rfl⟩
    · exact Or.inl rfl
    · exact Or.inl rfl

theorem alertsRun_length (reqs : List AlertReq) :
    ∀ store : List AlarmD, store.length ≤ 3 → (alertsRun store reqs).length ≤ 3 := by
  induction reqs with
  | nil => intro store h; simpa [alertsRun] using h
  | cons r rs ih =>
      intro store h
      rcases api_alerts_store_cases r.sid r.body r.fid store with hc | ⟨a, hc⟩
      · simpa [alertsRun, hc] using ih store h
      · simpa [alertsRun, hc] using ih _ (pushAlarm_length_le a h)

theorem reqSucceeds_elim {r : AlertReq} (h : reqSucceeds r) :
    r.body.isEmpty = false ∧ ∃ a, normalizeAlarm r.sid r.body r.fid = NormOut.ok a := by
  obtain ⟨b, hb⟩ := h []
  unfold api_alerts at hb
  split at hb
  · simp at hb
  · rename_i he
    refine ⟨by simpa using he, ?_⟩
    rcases hn : normalizeAlarm r.sid r.body r.fid with a | bb
    · exact ⟨a, rfl⟩
    · rw [hn] at hb; simp at hb
    · rw [hn] at hb; simp at hb

theorem api_alerts_ok (sid : String) (body : Payload) (fid : String) (s : List AlarmD)
    (he : body.isEmpty = false) {a : AlarmD}
    (hn : normalizeAlarm sid body fid = NormOut.ok a) :
    api_alerts sid body fid s =
      (HResp.resp 200 (Val.vdict [("status", Val.vstr "success"),
        ("alarms", Val.vlist ((pushAlarm s a).map Val.vdict))]), pushAlarm s a) := by
  simp [api_alerts, he, hn]

theorem alertsRun_foldl (reqs : List AlertReq) :
    (∀ r ∈ reqs, reqSucceeds r) →
    ∀ store : List AlarmD,
      alertsRun store reqs = List.foldl pushAlarm store (appendedAlarms reqs) ∧
      (appendedAlarms reqs).length = reqs.length := by
  induction reqs with
  | nil => intro _ store; simp [alertsRun, appendedAlarms]
  | cons r rs ih =>
      intro hs store
      obtain ⟨he, a, hn⟩ := reqSucceeds_elim (hs r (by simp))
      have hok : normOkAlarm r = some a := by simp [normOkAlarm, he, hn]
      have hihs : ∀ x ∈ rs, reqSucceeds x := fun x hx => hs x (by simp [hx])
      have happ : appendedAlarms (r :: rs) = a :: appendedAlarms rs := by
        simp [appendedAlarms, List.filterMap_cons, hok]
      constructor
      · rw [show alertsRun store (r :: rs) = alertsRun (api_alerts r.sid r.body r.fid store).2 rs from rfl,
            api_alerts_ok r.sid r.body r.fid store he hn, happ, List.foldl_cons]
        exact (ih hihs (pushAlarm store a)).1
      · rw [happ]
        simpa using (ih hihs store).2

theorem foldl_push_drop (as : List AlarmD) :
    ∀ store : List AlarmD, store.length ≤ 3 →
      List.foldl pushAlarm store as = (store ++ as).drop (store.length + as.length - 3) := by
  induction as with
  | nil =>
      intro store h
      simp only [List.foldl_nil, List.append_nil, List.length_nil, Nat.add_zero]
      rw [show store.length - 3 = 0 from by omega, List.drop_zero]
  | cons a t ih =>
      intro store h
      rw [List.foldl_cons, ih (pushAlarm store a) (pushAlarm_length_le a h)]
      by_cases h3 : 3 ≤ store.length
      · have hlen : store.length = 3 := by omega
        obtain ⟨x, xs, rfl⟩ : ∃ x xs, store = x :: xs := by
          cases store with
          | nil => simp at hlen
          | cons x xs => exact ⟨x, xs, rfl⟩
        have hxs : xs.length = 2 := by simpa using hlen
        have hp : pushAlarm (x :: xs) a = xs ++ [a] := by
          unfold pushAlarm
          rw [if_pos (show MAX_ALARMS ≤ (x :: xs).length from by
            simpa [MAX_ALARMS] using h3)]
          rfl
        rw [hp]
        have hidx1 : (xs ++ [a]).length + t.length - 3 = t.length := by
          simp only [List.length_append, List.length_singleton, List.length_cons, List.length_nil, hxs]
          omega
        have hidx2 : (x :: xs).length + (a :: t).length - 3 = t.length + 1 := by
          simp only [List.length_cons, hxs]
          omega
        rw [hidx1, hidx2, List.append_assoc, List.singleton_append, List.cons_append,
            List.drop_succ_cons]
      · have hp : pushAlarm store a = store ++ [a] := by
          unfold pushAlarm
          rw [if_neg (show ¬ MAX_ALARMS ≤ store.length from by
            simpa [MAX_ALARMS] using h3)]
        rw [hp, List.append_assoc, List.singleton_append]
        have hidx : (store ++ [a]).length + t.length - 3 =
            store.length + (a :: t).length - 3 := by
          simp only [List.length_append, List.length_singleton, List.length_cons, List.length_nil]
          omega
        rw [hidx]

example : truthy (Val.vfloat ⟨0, 1⟩) = false := by decide
example : pyGetD [("a", Val.vint 1)] "b" (Val.vdict []) = Val.vdict [] := rfl
example : pyStr (Val.vfloat ⟨25, 2⟩) = "12.5" := by decide
example : pyStr (Val.vfloat ⟨0, 1⟩) = "0.0" := by decide
example : pyStr (Val.vint 4) = "4" := by decide
example : pyStrip "  \t " = "" := by decide
example : pyStrip " ab " = "ab" := by decide
example : strContains "abcd" "bc" = true := by decide
example : strContains "abcd" "ca" = false := by decide

/-! ## Claim C1 -/

/-- C1: starting from any store of size at most 3, a sequence of successful
`POST /api/alerts/{scenarioId}` ingestions never grows the alarm store past
capacity 3 (every prefix of the run included), and after more than 3
successful appends the store is exactly the 3 most recently appended alarms,
oldest first (index 0 evicted before each append at capacity). -/
theorem C1_store_capacity_fifo (reqs : List AlertReq) (store0 : List AlarmD)
    (h0 : store0.length ≤ 3) (hs : ∀ r ∈ reqs, reqSucceeds r) :
    (∀ n, (alertsRun store0 (reqs.take n)).length ≤ 3) ∧
    (appendedAlarms reqs).length = reqs.length ∧
    (3 < reqs.length →
      alertsRun store0 reqs = (appendedAlarms reqs).drop (reqs.length - 3)) := by
  obtain ⟨hfold, hlen⟩ := alertsRun_foldl reqs hs store0
  refine ⟨fun n => alertsRun_length (reqs.take n) store0 h0, hlen, fun h3 => ?_⟩
  rw [hfold, foldl_push_drop (appendedAlarms reqs) store0 h0]
  have hidx : store0.length + (appendedAlarms reqs).length - 3 =
      store0.length + ((appendedAlarms reqs).length - 3) := by
    rw [hlen]; omega
  rw [hidx, List.drop_append, hlen]

/-- Witness for C1: a concrete run of four successful ingestions from the
empty store keeps size at most 3 and retains the last three appends. -/
theorem C1_witness :
    (alertsRun [] [wReq, wReq, wReq, wReq]).length ≤ 3 ∧
    alertsRun [] [wReq, wReq, wReq, wReq] =
      (appendedAlarms [wReq, wReq, wReq, wReq]).drop 1 := by
  have hw : reqSucceeds wReq := by intro s; exact ⟨_, rfl⟩
  have hall : ∀ r ∈ [wReq, wReq, wReq, wReq], reqSucceeds r := by
    intro r hr
    simp only [List.mem_cons, List.not_mem_nil, or_false, or_self] at hr
    rw [hr]; exact hw
  obtain ⟨h1, _, h3⟩ := C1_store_capacity_fifo [wReq, wReq, wReq, wReq] [] (by simp) hall
  exact ⟨by simpa using h1 4, by simpa using h3 (by simp)⟩

/-! ## Claim C2 -/

/-- C2: for scenario "2", when the nested `discard_rate.discard_rate` value
is absent (taking the 0.0 default) or present with value 0.0, `api_alerts`
rejects with 400 "Missing data for scenario 2" and no alarm is built (the
store is returned unchanged): the zero value fails the `all([...])`
required-field check. -/
theorem C2_zero_discard_rate_rejected (body : Payload) (fid : String)
    (store : List AlarmD) (d : List (String × Val)) (f : PyFloat)
    (hb : body ≠ [])
    (hd : pyGetD body "discard_rate" (Val.vdict []) = Val.vdict d)
    (h0 : pyGetD d "discard_rate" (Val.vfloat ⟨0, 1⟩) = Val.vfloat f)
    (hf : f.num = 0) :
    api_alerts "2" body fid store =
      (HResp.resp 400 (Val.vdict [("error", Val.vstr "Missing data for scenario 2")]),
       store) := by
  have he : body.isEmpty = false := by simpa [List.isEmpty_eq_false] using hb
  have hc : check2 body (pyGetD d "discard_rate" (Val.vfloat ⟨0, 1⟩)) = false := by
    rw [h0]; simp [check2, truthy, hf]
  simp [api_alerts, he, normalizeAlarm, scenario2, hd, hc]

/-- Witness for C2: scenario "2" with `discard_rate` entirely absent (the
nested default 0.0 applies) is rejected with 400 and the store untouched. -/
theorem C2_witness :
    api_alerts "2" [("device", Val.vint 4), ("fpc_slot", Val.vint 8)] "u" [] =
      (HResp.resp 400 (Val.vdict [("error", Val.vstr "Missing data for scenario 2")]),
       []) :=
  C2_zero_discard_rate_rejected [("device", Val.vint 4), ("fpc_slot", Val.vint 8)]
    "u" [] [] ⟨0, 1⟩ (by simp) rfl rfl rfl

/-! ## Claim C3 -/

/-- C3: every request that fails validation — an empty body, a failing
required-field check for scenario "1", "2" or "3", or an unsupported
scenario id — draws a 400 response and leaves the alarm store exactly as it
was (no partial mutation on invalid input). -/
theorem C3_validation_rejects_without_mutation (sid : String) (body : Payload)
    (fid : String) (store : List AlarmD) (h : validationFailure sid body) :
    ∃ b, api_alerts sid body fid store = (HResp.resp 400 b, store) := by
  rcases h with h | ⟨hne, h⟩
  · subst h; exact ⟨_, rfl⟩
  · have he : body.isEmpty = false := by simpa [List.isEmpty_eq_false] using hne
    rcases h with ⟨h1, hc⟩ | ⟨h3, hc⟩ | ⟨h2, d, hd, hc⟩ | ⟨n1, n2, n3⟩
    · subst h1
      exact ⟨Val.vdict [("error", Val.vstr "Missing data for scenario 1")],
        by simp [api_alerts, he, normalizeAlarm, scenario1, hc]⟩
    · subst h3
      exact ⟨Val.vdict [("error", Val.vstr "Missing data for scenario 3")],
        by simp [api_alerts, he, normalizeAlarm, scenario3, hc]⟩
    · subst h2
      exact ⟨Val.vdict [("error", Val.vstr "Missing data for scenario 2")],
        by simp [api_alerts, he, normalizeAlarm, scenario2, hd, hc]⟩
    · exact ⟨Val.vdict [("error", Val.vstr "invalid or unsupported scenario_id")],
        by simp [api_alerts, he, normalizeAlarm, n1, n2, n3]⟩

/-- Witness for C3: an unsupported scenario id with a non-empty body gets a
400 and the store stays empty. -/
theorem C3_witness :
    ∃ b, api_alerts "9" [("x", Val.vint 1)] "u" [] = (HResp.resp 400 b, []) :=
  C3_validation_rejects_without_mutation "9" [("x", Val.vint 1)] "u" []
    (Or.inr ⟨by simp, Or.inr (Or.inr (Or.inr ⟨by decide, by decide, by decide⟩))⟩)

/-! ## Claim C10 -/

/-- C10: every successful `POST /api/alerts/{scenarioId}` responds 200 with
`alarms` holding the entire post-append store contents (up to 3 alarms,
oldest first, earlier requests' alarms included), not only the new alarm. -/
theorem C10_success_returns_whole_store (sid : String) (body : Payload)
    (fid : String) (store : List AlarmD)
    (h : ∃ b, (api_alerts sid body fid store).1 = HResp.resp 200 b) :
    (api_alerts sid body fid store).1 =
      HResp.resp 200 (Val.vdict [("status", Val.vstr "success"),
        ("alarms", Val.vlist ((api_alerts sid body fid store).2.map Val.vdict))]) := by
  obtain ⟨b, hb⟩ := h
  by_cases he : body.isEmpty = true
  · simp [api_alerts, he] at hb
  · have hf : body.isEmpty = false := by simpa using he
    rcases hn : normalizeAlarm sid body fid with a | bb
    · simp [api_alerts, hf, hn]
    · simp [api_alerts, hf, hn] at hb
    · simp [api_alerts, hf, hn] at hb

/-- Witness for C10 at a concrete successful scenario-1 ingestion onto a
store that already holds one alarm. -/
theorem C10_witness :
    (api_alerts "1" w10Body "u" [[("id", Val.vstr "old")]]).1 =
      HResp.resp 200 (Val.vdict [("status", Val.vstr "success"),
        ("alarms", Val.vlist
          ((api_alerts "1" w10Body "u" [[("id", Val.vstr "old")]]).2.map Val.vdict))]) :=
  C10_success_returns_whole_store "1" w10Body "u" [[("id", Val.vstr "old")]] ⟨_, rfl⟩

/-! ## Claim C4 -/

/-- C4 counterexample: on the spec's concrete scenario-1 input the alarm's
device is "CR1" and its description contains the interlink warning for
"ge-0/0/1", but the warning is NOT a prefix of the description — the code
appends it after the error-rate text and the "<br>" marker. -/
theorem C4_counterexample :
    (api_alerts "1" samplePayload1 "cid" []).2.map (fun a => pyGet a "description") =
      [Val.vstr ("Interface ge-0/0/1 error rate - 12.5%<br>" ++ interlinkWarning)] ∧
    strIsPrefixOf interlinkWarning
      ("Interface ge-0/0/1 error rate - 12.5%<br>" ++ interlinkWarning) = false := by
  exact ⟨rfl, by decide⟩

/-- C4 (amended): normalizing scenario "1" with
`device=4, interface="ge-0/0/1", packet_loss=12.5, alarm_type="major",
interlink_status="false"` succeeds (200), resolves the device to "CR1", and
the description contains the fixed interlink warning referencing "ge-0/0/1"
— placed as a suffix of the description, after the error-rate text and the
"<br>" marker, not as a prefix. -/
theorem C4_interlink_warning_as_suffix :
    respStatus (api_alerts "1" samplePayload1 "cid" []).1 = 200 ∧
    (api_alerts "1" samplePayload1 "cid" []).2.map (fun a => pyGet a "device") =
      [Val.vstr "CR1"] ∧
    (api_alerts "1" samplePayload1 "cid" []).2.map (fun a => pyGet a "description") =
      [Val.vstr ("Interface ge-0/0/1 error rate - 12.5%<br>" ++ interlinkWarning)] ∧
    strContains ("Interface ge-0/0/1 error rate - 12.5%<br>" ++ interlinkWarning)
      interlinkWarning = true ∧
    strIsSuffixOf interlinkWarning
      ("Interface ge-0/0/1 error rate - 12.5%<br>" ++ interlinkWarning) = true := by
  exact ⟨rfl, rfl, rfl, by decide, by decide⟩

/-! ## Claim C5 -/

/-- C5: after one `POST /api/agent/process` with a non-empty body, the first
`GET /api/results/latest-result` returns 200 with the stored result and
clears all three mailbox fields to null, and an immediately following second
GET returns 202 `{"status": "processing"}` — exactly-once delivery in
sequential use. -/
theorem C5_mailbox_exactly_once (body : Payload) (now : PyFloat)
    (st : LatestStore) (hb : body ≠ []) :
    (api_agent_process body now st).1 =
      (200, Val.vdict [("status", Val.vstr "success"), ("message", Val.vstr "Result stored")]) ∧
    get_analysis_results (api_agent_process body now st).2 =
      ((200, Val.vdict [("result", Val.vdict [("text", pyGet body "text")]),
                        ("timestamp", Val.vfloat now),
                        ("scenario_id", pyGet body "scenario_id")]),
       ⟨Val.vnull, Val.vnull, Val.vnull⟩) ∧
    get_analysis_results
        (get_analysis_results (api_agent_process body now st).2).2 =
      ((202, Val.vdict [("status", Val.vstr "processing")]),
       ⟨Val.vnull, Val.vnull, Val.vnull⟩) := by
  have he : body.isEmpty = false := by simpa [List.isEmpty_eq_false] using hb
  refine ⟨by simp [api_agent_process, he], ?_, ?_⟩
  · simp [api_agent_process, he, get_analysis_results, truthy]
  · simp [api_agent_process, he, get_analysis_results, truthy]

/-- Witness for C5 at a concrete write into the initial mailbox. -/
theorem C5_witness :
    get_analysis_results
        (api_agent_process [("text", Val.vstr "done")] ⟨17, 10⟩ LATEST_RESULT_STORE).2 =
      ((200, Val.vdict [("result", Val.vdict [("text", Val.vstr "done")]),
                        ("timestamp", Val.vfloat ⟨17, 10⟩),
                        ("scenario_id", Val.vnull)]),
       ⟨Val.vnull, Val.vnull, Val.vnull⟩) ∧
    get_analysis_results
        (get_analysis_results
          (api_agent_process [("text", Val.vstr "done")] ⟨17, 10⟩ LATEST_RESULT_STORE).2).2 =
      ((202, Val.vdict [("status", Val.vstr "processing")]),
       ⟨Val.vnull, Val.vnull, Val.vnull⟩) := by
  obtain ⟨_, h2, h3⟩ :=
    C5_mailbox_exactly_once [("text", Val.vstr "done")] ⟨17, 10⟩ LATEST_RESULT_STORE
      (by simp)
  exact ⟨h2, h3⟩

/-! ## Claim C6 -/

/-- C6 counterexample: with `GW_VERIFY` absent from the environment, the
gateway client issues calls with certificate verification DISABLED
(`verify=False`), contradicting the claim that verification is enforced by
default. -/
theorem C6_counterexample :
    GW_VERIFY [] = false ∧ (gw_get [] "/ollama/api/tags" 30).verify = false := by
  exact ⟨by decide, by decide⟩

/-- C6 (amended): when the `GW_VERIFY` toggle is not set in the environment,
outbound gateway calls are made with certificate verification DISABLED (the
default parses `"false"`); enforcing verification is the explicit opt-in,
by setting `GW_VERIFY=true`. -/
theorem C6_verify_default_off (env : List (String × String)) (path : String)
    (t : Nat) (h : env.find? (fun p => p.1 == "GW_VERIFY") = none) :
    (gw_get env path t).verify = false ∧
    (gw_post env path t false).verify = false ∧
    GW_VERIFY [("GW_VERIFY", "true")] = true := by
  have hv : GW_VERIFY env = false := by
    unfold GW_VERIFY envGet
    rw [h]
    decide
  exact ⟨hv, hv, by decide⟩

/-- Witness for C6 in the empty environment. -/
theorem C6_witness :
    (gw_get [] "/api/generate" 30).verify = false ∧
    (gw_post [] "/api/generate" 30 false).verify = false ∧
    GW_VERIFY [("GW_VERIFY", "true")] = true :=
  C6_verify_default_off [] "/api/generate" 30 rfl

/-! ## Claim C7 -/

/-- C7: `DELETE /api/alarms/ignore/{alarmId}` with an id matching no stored
alarm returns 404 and leaves the store exactly as it was (same elements,
same order, same size); with a present id it returns 200 and removes exactly
the entries carrying that id. -/
theorem C7_ignore_alarm (alarm_id : String) (store : List AlarmD) :
    ((∀ a ∈ store, eqStr (pyGet a "id") alarm_id = false) →
      api_ignore_alarm alarm_id store =
        ((404, Val.vdict [("error", Val.vstr "Alarm ID not found")]), store)) ∧
    ((∃ a ∈ store, eqStr (pyGet a "id") alarm_id = true) →
      (api_ignore_alarm alarm_id store).1.1 = 200 ∧
      (api_ignore_alarm alarm_id store).2 =
        store.filter (fun a => !(eqStr (pyGet a "id") alarm_id))) := by
  constructor
  · intro h
    have hf : store.filter (fun a => !(eqStr (pyGet a "id") alarm_id)) = store :=
      List.filter_eq_self.mpr (fun a ha => by simp [h a ha])
    simp [api_ignore_alarm, hf]
  · rintro ⟨a, ha, hid⟩
    have hlt : (store.filter (fun a => !(eqStr (pyGet a "id") alarm_id))).length <
        store.length :=
      List.length_filter_lt_length_iff_exists.mpr ⟨a, ha, by simp [hid]⟩
    simp [api_ignore_alarm, hlt]

/-- Witness for C7: a store holding alarms with ids "y" and "x"; deleting
"z" 404s and changes nothing, deleting "x" 200s and removes exactly it. -/
theorem C7_witness :
    api_ignore_alarm "z" [[("id", Val.vstr "y")], [("id", Val.vstr "x")]] =
      ((404, Val.vdict [("error", Val.vstr "Alarm ID not found")]),
       [[("id", Val.vstr "y")], [("id", Val.vstr "x")]]) ∧
    (api_ignore_alarm "x" [[("id", Val.vstr "y")], [("id", Val.vstr "x")]]).1.1 = 200 ∧
    (api_ignore_alarm "x" [[("id", Val.vstr "y")], [("id", Val.vstr "x")]]).2 =
      [[("id", Val.vstr "y")]] := by
  refine ⟨(C7_ignore_alarm "z" _).1 (by decide), ?_⟩
  obtain ⟨h1, h2⟩ := (C7_ignore_alarm "x"
    [[("id", Val.vstr "y")], [("id", Val.vstr "x")]]).2
    ⟨[("id", Val.vstr "x")], by simp, by decide⟩
  exact ⟨h1, h2.trans rfl⟩

/-! ## Claim C8 -/

/-- C8: a `POST /api/analyze` whose query field is absent (defaulting to the
empty string), empty, or whitespace-only is rejected with 400 before the
handler reaches the upstream call (the result is `reject`, never
`callGateway`). -/
theorem C8_blank_query_rejected (payload : Payload) (s : String)
    (hq : pyGetD payload "query" (Val.vstr "") = Val.vstr s)
    (hw : s.toList.all isPySpace = true) :
    api_analyze payload =
      AnalyzeStep.reject 400 (Val.vdict [("error", Val.vstr "Query is required")]) := by
  have h1 : List.dropWhile isPySpace s.data = [] :=
    List.dropWhile_eq_nil_iff.mpr (fun x hx => (List.all_eq_true.mp hw) x hx)
  have hstrip : pyStrip s = "" := by
    simp [pyStrip, String.toList, h1]
  have hempty : ("" : String).isEmpty = true := rfl
  simp [api_analyze, hq, hstrip, hempty]

/-- Witness for C8 with a whitespace-only query. -/
theorem C8_witness :
    api_analyze [("query", Val.vstr " \t ")] =
      AnalyzeStep.reject 400 (Val.vdict [("error", Val.vstr "Query is required")]) :=
  C8_blank_query_rejected [("query", Val.vstr " \t ")] " \t " rfl (by decide)

/-! ## Claim C9 -/

/-- C9: in the initial process state the mailbox already holds a non-null
result object with empty text which the poll endpoint treats as present: the
very first `GET /api/results/latest-result` after startup returns 200 with
the empty-text result and clears the slot — it does not return 202
`{"status": "processing"}`. -/
theorem C9_initial_mailbox_served :
    get_analysis_results LATEST_RESULT_STORE =
      ((200, Val.vdict [("result", Val.vdict [("text", Val.vstr "")]),
                        ("timestamp", Val.vnull), ("scenario_id", Val.vnull)]),
       ⟨Val.vnull, Val.vnull, Val.vnull⟩) ∧
    (get_analysis_results LATEST_RESULT_STORE).1.1 ≠ 202 := by
  exact ⟨rfl, by decide⟩
